import Mathlib

/-!
# MPPICParcel tracking data: averaged fields and tracking phase

A shallow embedding of `MPPICParcelTrackingDataI.H` (OpenFOAM 4.x):
the constructor of `MPPICParcel::TrackingData`, `updateAverages` and the two
`part()` accessors.

Scalars are elements of an arbitrary linearly ordered field `K` (exact
arithmetic; the instances used for evaluation are over `ℚ`).  The functions
`pow` and `sqrt` of the C++ maths library are a parameter (`ScalarMath`).
The averaging backend `AveragingMethod` is not part of the translated file; it
is modelled from the specification's description of it.
-/

namespace Foam

/-! ## Primitives -/

/-- The two transcendental functions of the maths library that `updateAverages`
uses: `pow(x, y)` and `sqrt(x)` (the latter through `mag`). They are a
parameter of the embedding. -/
structure ScalarMath (K : Type) where
  pow : K → K → K
  sqrt : K → K

/-- Modelled from the spec: the scalar primitive `sqr` (the square in the
collision kernel, "(0.5·diameter(p)+r)²") is not among the sources. -/
def sqr {K : Type} [Mul K] (s : K) : K := s * s

/-- Modelled from the spec: the scalar primitive `pow3` (the cube in the
collision kernel, "a/r³") is not among the sources. -/
def pow3 {K : Type} [Mul K] (s : K) : K := s * s * s

/-- Modelled from the spec: the primitive type `vector` is not among the
sources; a "3-vector" of scalars with componentwise arithmetic. -/
@[ext]
structure vector (K : Type) where
  x : K
  y : K
  z : K

namespace vector

variable {K : Type}

instance [Zero K] : Zero (vector K) := ⟨⟨0, 0, 0⟩⟩

instance [Add K] : Add (vector K) := ⟨fun a b => ⟨a.x + b.x, a.y + b.y, a.z + b.z⟩⟩

instance [Sub K] : Sub (vector K) := ⟨fun a b => ⟨a.x - b.x, a.y - b.y, a.z - b.z⟩⟩

/-- The product `s*v` of a scalar and a vector. -/
instance [Mul K] : HMul K (vector K) (vector K) := ⟨fun s v => ⟨s * v.x, s * v.y, s * v.z⟩⟩

/-- The quotient `v/s` of a vector by a scalar. -/
instance [Div K] : HDiv (vector K) K (vector K) := ⟨fun v s => ⟨v.x / s, v.y / s, v.z / s⟩⟩

end vector

/-- Modelled from the spec: the vector primitive `magSqr` ("squared deviation
magnitude") is not among the sources; it is the sum of the squared
components. -/
def magSqr {K : Type} [Add K] [Mul K] (v : vector K) : K := v.x * v.x + v.y * v.y + v.z * v.z

/-- Modelled from the spec: the vector primitive `mag` ("|velocity(p) − u|")
is not among the sources; it is the square root of `magSqr`. -/
def mag {K : Type} [Add K] [Mul K] (M : ScalarMath K) (v : vector K) : K := M.sqrt (magSqr v)

/-- The value types `Type` an `AveragingMethod<Type>` is instantiated at
(`scalar` and `vector`): a zero, accumulation and division by a scalar. -/
class FieldValue (K : Type) (T : Type) extends AddCommMonoid T where
  divide : T → K → T

instance scalarFieldValue (K : Type) [LinearOrderedField K] : FieldValue K K where
  divide := fun a s => a / s

instance vectorAddCommMonoid (K : Type) [LinearOrderedField K] : AddCommMonoid (vector K) where
  add := fun a b => a + b
  zero := 0
  nsmul := fun n v => ⟨n • v.x, n • v.y, n • v.z⟩
  add_assoc := by
    intro a b c
    ext
    · exact add_assoc a.x b.x c.x
    · exact add_assoc a.y b.y c.y
    · exact add_assoc a.z b.z c.z
  zero_add := by
    intro a
    ext
    · exact zero_add a.x
    · exact zero_add a.y
    · exact zero_add a.z
  add_zero := by
    intro a
    ext
    · exact add_zero a.x
    · exact add_zero a.y
    · exact add_zero a.z
  add_comm := by
    intro a b
    ext
    · exact add_comm a.x b.x
    · exact add_comm a.y b.y
    · exact add_comm a.z b.z
  nsmul_zero := by
    intro v
    ext
    · exact zero_nsmul v.x
    · exact zero_nsmul v.y
    · exact zero_nsmul v.z
  nsmul_succ := by
    intro n v
    ext
    · exact succ_nsmul v.x n
    · exact succ_nsmul v.y n
    · exact succ_nsmul v.z n

instance vectorFieldValue (K : Type) [LinearOrderedField K] : FieldValue K (vector K) where
  divide := fun v s => v / s

/-! ## Mesh locality and the averaging backend -/

/-- Modelled from the spec: the class `tetIndices` is not among the sources;
the "locality locator" built from the cell, tet face and tet point of a parcel. -/
structure tetIndices where
  cell : Nat
  face : Nat
  tetPt : Nat

/-- Modelled from the spec: the class `IOobject` is not among the sources; the
"field identity name" and the time name a field is constructed with. -/
structure IOobject where
  name : String
  timeName : String

/-- Modelled from the spec: the class `AveragingMethod<Type>` is not among the
sources. "A mapping from mesh locality to an accumulated value of type T",
together with the "implicit accumulated count" that `average()` normalises by.
The bucket of a locator is its cell. -/
structure AveragingMethod (K : Type) (T : Type) where
  io : IOobject
  data : Nat → T
  count : Nat → Nat

namespace AveragingMethod

variable {K : Type} [LinearOrderedField K] {T : Type} [FieldValue K T]

/-- Modelled from the spec: the field factory `AveragingMethod<Type>::New`
("returning an owned field instance"); a new field holds the additive identity
and has accumulated nothing. -/
def New (K : Type) [LinearOrderedField K] (T : Type) [FieldValue K T] (io : IOobject) :
    AveragingMethod K T :=
  { io := io, data := fun _ => 0, count := fun _ => 0 }

/-- Modelled from the spec: assignment of a uniform value, `field = value`
("sums reset to zero, not reallocated"; the field is "created fresh" for a
recomputation cycle, so nothing counts as accumulated afterwards). -/
def assign (A : AveragingMethod K T) (value : T) : AveragingMethod K T :=
  { A with data := fun _ => value, count := fun _ => 0 }

/-- Modelled from the spec: assignment of another field, `field = other`
("copy volume-field into radius-field"); the registration of the target is
kept. -/
def assignField (A : AveragingMethod K T) (other : AveragingMethod K T) : AveragingMethod K T :=
  { A with data := other.data, count := other.count }

/-- Modelled from the spec: `add(position, locator, contribution)`
("accumulate"): the contribution is added to the bucket of the locator and
counted there. -/
def add (A : AveragingMethod K T) (_position : vector K) (tetIs : tetIndices) (value : T) :
    AveragingMethod K T :=
  { A with
    data := fun c => if c = tetIs.cell then A.data c + value else A.data c
    count := fun c => if c = tetIs.cell then A.count c + 1 else A.count c }

/-- Modelled from the spec: `average()` ("normalize accumulated sum by an
implicit accumulated count"). A bucket that accumulated nothing is left as it
is ("must tolerate an empty particle collection ... no exception"). -/
def average (A : AveragingMethod K T) : AveragingMethod K T :=
  { A with
    data := fun c =>
      if A.count c = 0 then A.data c else FieldValue.divide (A.data c) ((A.count c : Nat) : K) }

/-- Modelled from the spec: `average(weightField)` ("normalize by a
caller-supplied weight field instead of a plain count"). A bucket of zero
weight is left as it is. -/
def averageW (A : AveragingMethod K T) (weight : AveragingMethod K K) : AveragingMethod K T :=
  { A with
    data := fun c =>
      if weight.data c = 0 then A.data c else FieldValue.divide (A.data c) (weight.data c) }

/-- Modelled from the spec: `interpolate(position, locator)` ("produce a value
at an arbitrary point from the field's stored representation"): the value of
the bucket of the locator. -/
def interpolate (A : AveragingMethod K T) (_position : vector K) (tetIs : tetIndices) : T :=
  A.data tetIs.cell

end AveragingMethod

/-! ## Parcels and clouds -/

/-- Modelled from the spec: the parcel class is not among the sources. What
the iteration over the cloud yields for a parcel: the values of the
accessors `position()`, `cell()`, `tetFace()`, `tetPt()`, `nParticle()`,
`mass()`, `volume()`, `rho()`, `d()` and `U()`. -/
structure parcelType (K : Type) where
  position : vector K
  cell : Nat
  tetFace : Nat
  tetPt : Nat
  nParticle : K
  mass : K
  volume : K
  rho : K
  d : K
  U : vector K

/-- Modelled from the spec: the cloud class is not among the sources. The
particle collection: what `updateAverages` and the constructor read of
`CloudType` (`name()`, the time name of its registry, and the parcels in
iteration order). -/
structure CloudType (K : Type) where
  name : String
  timeName : String
  parcels : List (parcelType K)

/-- The locator built in every loop body:
`tetIndices tetIs(p.cell(), p.tetFace(), p.tetPt(), cloud.mesh())`. -/
def parcelType.tetIs {K : Type} (p : parcelType K) : tetIndices :=
  { cell := p.cell, face := p.tetFace, tetPt := p.tetPt }

/-- The accumulation every loop of `updateAverages` performs on one field:
`field.add(p.position(), tetIs, g p)` for each parcel `p` in iteration
order. -/
def accumulate {K : Type} [LinearOrderedField K] {T : Type} [FieldValue K T]
    (g : parcelType K → T) (A : AveragingMethod K T) (ps : List (parcelType K)) :
    AveragingMethod K T :=
  ps.foldl (fun A p => A.add p.position p.tetIs (g p)) A

/-! ## TrackingData -/

/-- The data members of `MPPICParcel::TrackingData`; `trackPart` is the
enumeration of tracking phases, declared outside the translated file and taken
as a parameter. -/
structure TrackingData (K : Type) (trackPart : Type) where
  volumeAverage_ : AveragingMethod K K
  radiusAverage_ : AveragingMethod K K
  rhoAverage_ : AveragingMethod K K
  uAverage_ : AveragingMethod K (vector K)
  uSqrAverage_ : AveragingMethod K K
  frequencyAverage_ : AveragingMethod K K
  massAverage_ : AveragingMethod K K
  part_ : trackPart

namespace TrackingData

variable {K : Type} [LinearOrderedField K] {trackPart : Type}

/-- The constructor `TrackingData(cloud, part)`. -/
def New (cloud : CloudType K) (part : trackPart) : TrackingData K trackPart :=
  { volumeAverage_ :=
      AveragingMethod.New K K ⟨cloud.name ++ ":volumeAverage", cloud.timeName⟩
    radiusAverage_ :=
      AveragingMethod.New K K ⟨cloud.name ++ ":radiusAverage", cloud.timeName⟩
    rhoAverage_ :=
      AveragingMethod.New K K ⟨cloud.name ++ ":rhoAverage", cloud.timeName⟩
    uAverage_ :=
      AveragingMethod.New K (vector K) ⟨cloud.name ++ ":uAverage", cloud.timeName⟩
    uSqrAverage_ :=
      AveragingMethod.New K K ⟨cloud.name ++ ":uSqrAverage", cloud.timeName⟩
    frequencyAverage_ :=
      AveragingMethod.New K K ⟨cloud.name ++ ":frequencyAverage", cloud.timeName⟩
    massAverage_ :=
      AveragingMethod.New K K ⟨cloud.name ++ ":massAverage", cloud.timeName⟩
    part_ := part }

/-- The read accessor `part() const`. -/
def part (td : TrackingData K trackPart) : trackPart := td.part_

/-- A write through the reference returned by the non-const accessor
`part()`: `td.part() = v`. -/
def partRef (td : TrackingData K trackPart) (v : trackPart) : TrackingData K trackPart :=
  { td with part_ := v }

/-- Body of the loop "averaging sums". -/
def averagingSumsStep (td : TrackingData K trackPart) (p : parcelType K) :
    TrackingData K trackPart :=
  let tetIs := p.tetIs
  let m := p.nParticle * p.mass
  { td with
    volumeAverage_ := td.volumeAverage_.add p.position tetIs (p.nParticle * p.volume)
    rhoAverage_ := td.rhoAverage_.add p.position tetIs (m * p.rho)
    uAverage_ := td.uAverage_.add p.position tetIs (m * p.U)
    massAverage_ := td.massAverage_.add p.position tetIs m }

/-- Body of the loop "squared velocity deviation". -/
def sqrDeviationStep (td : TrackingData K trackPart) (p : parcelType K) :
    TrackingData K trackPart :=
  let tetIs := p.tetIs
  let u := td.uAverage_.interpolate p.position tetIs
  { td with
    uSqrAverage_ :=
      td.uSqrAverage_.add p.position tetIs (p.nParticle * p.mass * magSqr (p.U - u)) }

/-- Body of the loop "sauter mean radius", on the temporary weight field. -/
def sauterStep (M : ScalarMath K) (weightAverage : AveragingMethod K K) (p : parcelType K) :
    AveragingMethod K K :=
  let tetIs := p.tetIs
  weightAverage.add p.position tetIs (p.nParticle * M.pow p.volume (2.0 / 3.0))

/-- The collision kernel of the loop "collision frequency":
`f = 0.75*a/pow3(r)*sqr(0.5*p.d() + r)*mag(p.U() - u)`. -/
def collisionKernel (M : ScalarMath K) (a r : K) (u : vector K) (p : parcelType K) : K :=
  0.75 * a / pow3 r * sqr (0.5 * p.d + r) * mag M (p.U - u)

/-- The kernel value `f` the loop "collision frequency" computes for parcel `p`
from the fields held by `td`: `a`, `r` and `u` are interpolated at the parcel. -/
def kernelAt (M : ScalarMath K) (td : TrackingData K trackPart) (p : parcelType K) : K :=
  collisionKernel M (td.volumeAverage_.interpolate p.position p.tetIs)
    (td.radiusAverage_.interpolate p.position p.tetIs)
    (td.uAverage_.interpolate p.position p.tetIs) p

/-- Body of the loop "collision frequency", on the tracking data and the
temporary weight field. -/
def collisionStep (M : ScalarMath K)
    (s : TrackingData K trackPart × AveragingMethod K K) (p : parcelType K) :
    TrackingData K trackPart × AveragingMethod K K :=
  let td := s.1
  let weightAverage := s.2
  let tetIs := p.tetIs
  let a := td.volumeAverage_.interpolate p.position tetIs
  let r := td.radiusAverage_.interpolate p.position tetIs
  let u := td.uAverage_.interpolate p.position tetIs
  let f := collisionKernel M a r u p
  ({ td with frequencyAverage_ := td.frequencyAverage_.add p.position tetIs (p.nParticle * f * f) },
   weightAverage.add p.position tetIs (p.nParticle * f))

/-- The section "zero the sums" of `updateAverages`. -/
def zeroSums (td : TrackingData K trackPart) : TrackingData K trackPart :=
  { td with
    volumeAverage_ := td.volumeAverage_.assign 0
    radiusAverage_ := td.radiusAverage_.assign 0
    rhoAverage_ := td.rhoAverage_.assign 0
    uAverage_ := td.uAverage_.assign 0
    uSqrAverage_ := td.uSqrAverage_.assign 0
    frequencyAverage_ := td.frequencyAverage_.assign 0
    massAverage_ := td.massAverage_.assign 0 }

/-- The section "averaging sums" of `updateAverages`: the loop and the four
normalisations after it. -/
def averagingSums (cloud : CloudType K) (td : TrackingData K trackPart) :
    TrackingData K trackPart :=
  let td := cloud.parcels.foldl averagingSumsStep td
  let td := { td with volumeAverage_ := td.volumeAverage_.average }
  let td := { td with massAverage_ := td.massAverage_.average }
  let td := { td with rhoAverage_ := td.rhoAverage_.averageW td.massAverage_ }
  { td with uAverage_ := td.uAverage_.averageW td.massAverage_ }

/-- The section "squared velocity deviation" of `updateAverages`. -/
def sqrDeviation (cloud : CloudType K) (td : TrackingData K trackPart) :
    TrackingData K trackPart :=
  let td := cloud.parcels.foldl sqrDeviationStep td
  { td with uSqrAverage_ := td.uSqrAverage_.averageW td.massAverage_ }

/-- The section "sauter mean radius" of `updateAverages`, on the tracking data
and the temporary weight field. -/
def sauterMeanRadius (M : ScalarMath K) (cloud : CloudType K)
    (s : TrackingData K trackPart × AveragingMethod K K) :
    TrackingData K trackPart × AveragingMethod K K :=
  let td := s.1
  let weightAverage := s.2
  let td := { td with radiusAverage_ := td.radiusAverage_.assignField td.volumeAverage_ }
  let weightAverage := weightAverage.assign 0
  let weightAverage := cloud.parcels.foldl (sauterStep M) weightAverage
  let weightAverage := weightAverage.average
  ({ td with radiusAverage_ := td.radiusAverage_.averageW weightAverage }, weightAverage)

/-- The section "collision frequency" of `updateAverages`; the temporary
weight field goes out of scope at its end. -/
def collisionFrequency (M : ScalarMath K) (cloud : CloudType K)
    (s : TrackingData K trackPart × AveragingMethod K K) : TrackingData K trackPart :=
  let td := s.1
  let weightAverage := s.2
  let weightAverage := weightAverage.assign 0
  let s := cloud.parcels.foldl (collisionStep M) (td, weightAverage)
  let td := s.1
  let weightAverage := s.2
  { td with frequencyAverage_ := td.frequencyAverage_.averageW weightAverage }

/-- The member function `updateAverages(cloud)`. -/
def updateAverages (M : ScalarMath K) (cloud : CloudType K) (td : TrackingData K trackPart) :
    TrackingData K trackPart :=
  let td := zeroSums td
  let weightAverage : AveragingMethod K K :=
    AveragingMethod.New K K ⟨cloud.name ++ ":weightAverage", cloud.timeName⟩
  let td := averagingSums cloud td
  let td := sqrDeviation cloud td
  let s := sauterMeanRadius M cloud (td, weightAverage)
  collisionFrequency M cloud s

/-- The tracking data `td` with the registrations of the seven fields and the
tracking phase taken from `src`: the part of the state that `updateAverages`
never writes. -/
def relabel (src td : TrackingData K trackPart) : TrackingData K trackPart :=
  { volumeAverage_ := { td.volumeAverage_ with io := src.volumeAverage_.io }
    radiusAverage_ := { td.radiusAverage_ with io := src.radiusAverage_.io }
    rhoAverage_ := { td.rhoAverage_ with io := src.rhoAverage_.io }
    uAverage_ := { td.uAverage_ with io := src.uAverage_.io }
    uSqrAverage_ := { td.uSqrAverage_ with io := src.uSqrAverage_.io }
    frequencyAverage_ := { td.frequencyAverage_ with io := src.frequencyAverage_.io }
    massAverage_ := { td.massAverage_ with io := src.massAverage_.io }
    part_ := src.part_ }

end TrackingData

/-! ## Concrete instances used for evaluation -/

/-- Modelled from the spec: the enumeration `trackPart` is declared outside the
translated file; "an enumerated value with (at minimum) two variants
representing free-flight integration and collision/redistribution
processing". -/
inductive TrackingPhase where
  | freeFlight
  | collision
  deriving DecidableEq

/-- A maths library over `ℚ`, exact on the arguments the evaluations below
use: `pow(1, 2/3) = 1`, `pow(8, 2/3) = 4`, `sqrt(0) = 0`, `sqrt(1) = 1`,
`sqrt(4) = 2`. -/
def tableMath : ScalarMath ℚ where
  pow := fun x _ => if x = 8 then 4 else if x = 1 then 1 else 0
  sqrt := fun x => if x = 4 then 2 else if x = 1 then 1 else 0

/-- A parcel in cell 0 of unit multiplicity, mass, volume, density and
diameter, moving with velocity `(1, 0, 0)`. -/
def parcelA : parcelType ℚ :=
  { position := ⟨0, 0, 0⟩, cell := 0, tetFace := 0, tetPt := 0, nParticle := 1, mass := 1,
    volume := 1, rho := 1, d := 1, U := ⟨1, 0, 0⟩ }

/-- A parcel like `parcelA`, at rest. -/
def parcelB : parcelType ℚ :=
  { position := ⟨0, 0, 0⟩, cell := 0, tetFace := 0, tetPt := 0, nParticle := 1, mass := 1,
    volume := 1, rho := 1, d := 1, U := ⟨0, 0, 0⟩ }

/-- A parcel in cell 0 of multiplicity 2, mass 3, volume 8, density 5 and
diameter 2, moving with velocity `(1, 2, 3)`. -/
def parcelC : parcelType ℚ :=
  { position := ⟨0, 0, 0⟩, cell := 0, tetFace := 0, tetPt := 0, nParticle := 2, mass := 3,
    volume := 8, rho := 5, d := 2, U := ⟨1, 2, 3⟩ }

/-- The cloud of the two parcels `parcelA` and `parcelB`. -/
def cloudAB : CloudType ℚ := { name := "cloud", timeName := "0", parcels := [parcelA, parcelB] }

/-- The cloud of the single parcel `parcelC`. -/
def cloudC : CloudType ℚ := { name := "cloud", timeName := "0", parcels := [parcelC] }

/-- A newly constructed tracking data over `ℚ`. -/
def tdNew : TrackingData ℚ TrackingPhase := TrackingData.New cloudAB TrackingPhase.freeFlight

/-! ## Accumulation lemmas -/

section Accumulate

variable {K : Type} [LinearOrderedField K] {T : Type} [FieldValue K T]

theorem accumulate_nil (g : parcelType K → T) (A : AveragingMethod K T) :
    accumulate g A [] = A := rfl

theorem accumulate_cons (g : parcelType K → T) (A : AveragingMethod K T)
    (p : parcelType K) (ps : List (parcelType K)) :
    accumulate g A (p :: ps) = accumulate g (A.add p.position p.tetIs (g p)) ps := rfl

theorem accumulate_io (g : parcelType K → T) (ps : List (parcelType K))
    (A : AveragingMethod K T) : (accumulate g A ps).io = A.io := by
  induction ps generalizing A with
  | nil => rfl
  | cons p ps ih => rw [accumulate_cons, ih]; rfl

theorem accumulate_data (g : parcelType K → T) (c : Nat) (ps : List (parcelType K))
    (h : ∀ p ∈ ps, p.cell = c) (A : AveragingMethod K T) :
    (accumulate g A ps).data c = A.data c + (ps.map g).sum := by
  induction ps generalizing A with
  | nil => simp [accumulate_nil]
  | cons p ps ih =>
    have hp : p.cell = c := h p (List.mem_cons_self p ps)
    have hps : ∀ q ∈ ps, q.cell = c := fun q hq => h q (List.mem_cons_of_mem p hq)
    rw [accumulate_cons, ih hps, List.map_cons, List.sum_cons, ← add_assoc]
    simp [AveragingMethod.add, parcelType.tetIs, hp]

theorem accumulate_count (g : parcelType K → T) (c : Nat) (ps : List (parcelType K))
    (h : ∀ p ∈ ps, p.cell = c) (A : AveragingMethod K T) :
    (accumulate g A ps).count c = A.count c + ps.length := by
  induction ps generalizing A with
  | nil => simp [accumulate_nil]
  | cons p ps ih =>
    have hp : p.cell = c := h p (List.mem_cons_self p ps)
    have hps : ∀ q ∈ ps, q.cell = c := fun q hq => h q (List.mem_cons_of_mem p hq)
    rw [accumulate_cons, ih hps, List.length_cons]
    simp [AveragingMethod.add, parcelType.tetIs, hp]
    omega

end Accumulate

/-! ## The loops of `updateAverages` as accumulations -/

namespace TrackingData

variable {K : Type} [LinearOrderedField K] {trackPart : Type}

theorem foldl_averagingSumsStep (ps : List (parcelType K)) (td : TrackingData K trackPart) :
    ps.foldl averagingSumsStep td =
      { td with
        volumeAverage_ := accumulate (fun p => p.nParticle * p.volume) td.volumeAverage_ ps
        rhoAverage_ := accumulate (fun p => p.nParticle * p.mass * p.rho) td.rhoAverage_ ps
        uAverage_ := accumulate (fun p => (p.nParticle * p.mass) * p.U) td.uAverage_ ps
        massAverage_ := accumulate (fun p => p.nParticle * p.mass) td.massAverage_ ps } := by
  induction ps generalizing td with
  | nil => rfl
  | cons p ps ih => rw [List.foldl_cons, ih]; rfl

theorem foldl_sqrDeviationStep (ps : List (parcelType K)) (td : TrackingData K trackPart) :
    ps.foldl sqrDeviationStep td =
      { td with
        uSqrAverage_ :=
          accumulate
            (fun p =>
              p.nParticle * p.mass * magSqr (p.U - td.uAverage_.interpolate p.position p.tetIs))
            td.uSqrAverage_ ps } := by
  induction ps generalizing td with
  | nil => rfl
  | cons p ps ih => rw [List.foldl_cons, ih]; rfl

theorem foldl_sauterStep (M : ScalarMath K) (ps : List (parcelType K))
    (W : AveragingMethod K K) :
    ps.foldl (sauterStep M) W =
      accumulate (fun p => p.nParticle * M.pow p.volume (2.0 / 3.0)) W ps := rfl

theorem foldl_collisionStep (M : ScalarMath K) (ps : List (parcelType K))
    (td : TrackingData K trackPart) (W : AveragingMethod K K) :
    ps.foldl (collisionStep M) (td, W) =
      ({ td with
         frequencyAverage_ :=
           accumulate (fun p => p.nParticle * kernelAt M td p * kernelAt M td p)
             td.frequencyAverage_ ps },
       accumulate (fun p => p.nParticle * kernelAt M td p) W ps) := by
  induction ps generalizing td W with
  | nil => rfl
  | cons p ps ih =>
    rw [List.foldl_cons]
    exact (ih (collisionStep M (td, W) p).1 (collisionStep M (td, W) p).2).trans rfl

end TrackingData

/-! ## The fields after `updateAverages`, for a cloud in a single bucket -/

namespace TrackingData
variable {K : Type} [LinearOrderedField K] {trackPart : Type}

theorem volume_data (M : ScalarMath K) (cloud : CloudType K) (td : TrackingData K trackPart)
    (c : Nat) (hc : ∀ p ∈ cloud.parcels, p.cell = c) :
    (updateAverages M cloud td).volumeAverage_.data c =
      if cloud.parcels.length = 0 then 0
      else (cloud.parcels.map (fun p => p.nParticle * p.volume)).sum / (cloud.parcels.length : K) := by
  simp only [updateAverages, collisionFrequency, sauterMeanRadius, sqrDeviation, averagingSums,
    zeroSums, foldl_averagingSumsStep, foldl_sqrDeviationStep, foldl_sauterStep,
    foldl_collisionStep, AveragingMethod.average, AveragingMethod.assign,
    accumulate_data _ c _ hc, accumulate_count _ c _ hc, zero_add, FieldValue.divide]
  split_ifs with h <;> simp_all

theorem mass_data (M : ScalarMath K) (cloud : CloudType K) (td : TrackingData K trackPart)
    (c : Nat) (hc : ∀ p ∈ cloud.parcels, p.cell = c) :
    (updateAverages M cloud td).massAverage_.data c =
      if cloud.parcels.length = 0 then 0
      else (cloud.parcels.map (fun p => p.nParticle * p.mass)).sum / (cloud.parcels.length : K) := by
  simp only [updateAverages, collisionFrequency, sauterMeanRadius, sqrDeviation, averagingSums,
    zeroSums, foldl_averagingSumsStep, foldl_sqrDeviationStep, foldl_sauterStep,
    foldl_collisionStep, AveragingMethod.average, AveragingMethod.assign,
    accumulate_data _ c _ hc, accumulate_count _ c _ hc, zero_add, FieldValue.divide]
  split_ifs with h <;> simp_all

theorem u_data (M : ScalarMath K) (cloud : CloudType K) (td : TrackingData K trackPart)
    (c : Nat) (hc : ∀ p ∈ cloud.parcels, p.cell = c) :
    (updateAverages M cloud td).uAverage_.data c =
      if (updateAverages M cloud td).massAverage_.data c = 0 then
        (cloud.parcels.map (fun p => (p.nParticle * p.mass) * p.U)).sum
      else (cloud.parcels.map (fun p => (p.nParticle * p.mass) * p.U)).sum /
        (updateAverages M cloud td).massAverage_.data c := by
  simp only [updateAverages, collisionFrequency, sauterMeanRadius, sqrDeviation, averagingSums,
    zeroSums, foldl_averagingSumsStep, foldl_sqrDeviationStep, foldl_sauterStep,
    foldl_collisionStep, AveragingMethod.average, AveragingMethod.averageW, AveragingMethod.assign,
    accumulate_data _ c _ hc, accumulate_count _ c _ hc, zero_add, FieldValue.divide]

theorem uSqr_data (M : ScalarMath K) (cloud : CloudType K) (td : TrackingData K trackPart)
    (c : Nat) (hc : ∀ p ∈ cloud.parcels, p.cell = c) :
    (updateAverages M cloud td).uSqrAverage_.data c =
      if (updateAverages M cloud td).massAverage_.data c = 0 then
        (cloud.parcels.map (fun p => p.nParticle * p.mass *
          magSqr (p.U - (updateAverages M cloud td).uAverage_.data c))).sum
      else (cloud.parcels.map (fun p => p.nParticle * p.mass *
          magSqr (p.U - (updateAverages M cloud td).uAverage_.data c))).sum /
        (updateAverages M cloud td).massAverage_.data c := by
  have hmap : ∀ (A : AveragingMethod K (vector K)),
      cloud.parcels.map (fun p => p.nParticle * p.mass *
          magSqr (p.U - A.interpolate p.position p.tetIs)) =
      cloud.parcels.map (fun p => p.nParticle * p.mass * magSqr (p.U - A.data c)) := by
    intro A
    apply List.map_congr_left
    intro p hp
    simp only [AveragingMethod.interpolate, parcelType.tetIs, hc p hp]
  simp only [updateAverages, collisionFrequency, sauterMeanRadius, sqrDeviation, averagingSums,
    zeroSums, foldl_averagingSumsStep, foldl_sqrDeviationStep, foldl_sauterStep,
    foldl_collisionStep, AveragingMethod.average, AveragingMethod.averageW, AveragingMethod.assign,
    accumulate_data _ c _ hc, accumulate_count _ c _ hc, zero_add, FieldValue.divide, hmap]

theorem radius_data (M : ScalarMath K) (cloud : CloudType K) (td : TrackingData K trackPart)
    (c : Nat) (hc : ∀ p ∈ cloud.parcels, p.cell = c) :
    (updateAverages M cloud td).radiusAverage_.data c =
      if (if cloud.parcels.length = 0 then (0 : K)
          else (cloud.parcels.map (fun p => p.nParticle * M.pow p.volume (2.0 / 3.0))).sum /
            (cloud.parcels.length : K)) = 0 then
        (updateAverages M cloud td).volumeAverage_.data c
      else (updateAverages M cloud td).volumeAverage_.data c /
        (if cloud.parcels.length = 0 then (0 : K)
          else (cloud.parcels.map (fun p => p.nParticle * M.pow p.volume (2.0 / 3.0))).sum /
            (cloud.parcels.length : K)) := by
  simp only [updateAverages, collisionFrequency, sauterMeanRadius, sqrDeviation, averagingSums,
    zeroSums, foldl_averagingSumsStep, foldl_sqrDeviationStep, foldl_sauterStep,
    foldl_collisionStep, AveragingMethod.average, AveragingMethod.averageW, AveragingMethod.assign,
    AveragingMethod.assignField, AveragingMethod.New,
    accumulate_data _ c _ hc, accumulate_count _ c _ hc, zero_add, FieldValue.divide]
  by_cases h : cloud.parcels.length = 0
  · simp [List.length_eq_zero.mp h]
  · simp [h]

end TrackingData

/-! ## `updateAverages` overwrites whatever the fields held -/

namespace TrackingData

variable {K : Type} [LinearOrderedField K] {trackPart : Type}

omit [LinearOrderedField K] in
theorem relabel_self (td : TrackingData K trackPart) : relabel td td = td := rfl

theorem zeroSums_eq_relabel (td td0 : TrackingData K trackPart) :
    zeroSums td = relabel td (zeroSums td0) := rfl

theorem averagingSums_relabel (cloud : CloudType K) (src td : TrackingData K trackPart) :
    averagingSums cloud (relabel src td) = relabel src (averagingSums cloud td) := by
  unfold averagingSums
  rw [List.foldl_hom (relabel src) averagingSumsStep averagingSumsStep cloud.parcels td
    (fun _ _ => rfl)]
  rfl

theorem sqrDeviation_relabel (cloud : CloudType K) (src td : TrackingData K trackPart) :
    sqrDeviation cloud (relabel src td) = relabel src (sqrDeviation cloud td) := by
  unfold sqrDeviation
  rw [List.foldl_hom (relabel src) sqrDeviationStep sqrDeviationStep cloud.parcels td
    (fun _ _ => rfl)]
  rfl

theorem sauterMeanRadius_relabel (M : ScalarMath K) (cloud : CloudType K)
    (src td : TrackingData K trackPart) (W : AveragingMethod K K) :
    sauterMeanRadius M cloud (relabel src td, W) =
      (relabel src (sauterMeanRadius M cloud (td, W)).1, (sauterMeanRadius M cloud (td, W)).2) :=
  rfl

theorem collisionFrequency_relabel (M : ScalarMath K) (cloud : CloudType K)
    (src td : TrackingData K trackPart) (W : AveragingMethod K K) :
    collisionFrequency M cloud (relabel src td, W) =
      relabel src (collisionFrequency M cloud (td, W)) := by
  unfold collisionFrequency
  have h := List.foldl_hom
    (fun s : TrackingData K trackPart × AveragingMethod K K => (relabel src s.1, s.2))
    (collisionStep M) (collisionStep M) cloud.parcels (td, W.assign 0) (fun _ _ => rfl)
  simp only at h ⊢
  rw [h]
  rfl

theorem updateAverages_eq_relabel (M : ScalarMath K) (cloud : CloudType K)
    (td td0 : TrackingData K trackPart) :
    updateAverages M cloud td = relabel td (updateAverages M cloud td0) := by
  unfold updateAverages
  simp only
  rw [zeroSums_eq_relabel td td0, averagingSums_relabel, sqrDeviation_relabel,
    sauterMeanRadius_relabel, collisionFrequency_relabel]

end TrackingData

/-! ## Claims -/

namespace TrackingData

variable {K : Type} [LinearOrderedField K] {trackPart : Type}

/-- C1: for an empty particle collection `updateAverages` returns (it is a total
function), and afterwards each of the seven fields (volume, radius, density,
velocity, velocity variance, frequency, mass) interpolates to the zero of its
type at every position and locator, whatever the fields held before. -/
theorem C1_updateAverages_empty (M : ScalarMath K) (name timeName : String)
    (td : TrackingData K trackPart) (x : vector K) (t : tetIndices) :
    (updateAverages M ⟨name, timeName, []⟩ td).volumeAverage_.interpolate x t = 0 ∧
    (updateAverages M ⟨name, timeName, []⟩ td).radiusAverage_.interpolate x t = 0 ∧
    (updateAverages M ⟨name, timeName, []⟩ td).rhoAverage_.interpolate x t = 0 ∧
    (updateAverages M ⟨name, timeName, []⟩ td).uAverage_.interpolate x t = 0 ∧
    (updateAverages M ⟨name, timeName, []⟩ td).uSqrAverage_.interpolate x t = 0 ∧
    (updateAverages M ⟨name, timeName, []⟩ td).frequencyAverage_.interpolate x t = 0 ∧
    (updateAverages M ⟨name, timeName, []⟩ td).massAverage_.interpolate x t = 0 := by
  simp [updateAverages, collisionFrequency, sauterMeanRadius, sqrDeviation, averagingSums,
    zeroSums, AveragingMethod.average, AveragingMethod.averageW, AveragingMethod.assign,
    AveragingMethod.assignField, AveragingMethod.New, AveragingMethod.interpolate]

/-- C6: with the multiplicity (positive), the diameter, the interpolated volume
fraction `a`, the interpolated Sauter radius `r` (non-zero) and the local mean
velocity `u` fixed, what a parcel adds to the frequency field,
`nParticle*f*f` with `f` the collision kernel, does not decrease when its
relative speed `mag (U - u)` increases. -/
theorem C6_frequency_contribution_mono (M : ScalarMath K) (a r : K) (u : vector K)
    (p : parcelType K) (U' : vector K) (hn : 0 < p.nParticle) (_hr : r ≠ 0)
    (h0 : 0 ≤ mag M (p.U - u)) (hle : mag M (p.U - u) ≤ mag M (U' - u)) :
    p.nParticle * collisionKernel M a r u p * collisionKernel M a r u p ≤
      ({ p with U := U' } : parcelType K).nParticle *
          collisionKernel M a r u { p with U := U' } *
        collisionKernel M a r u { p with U := U' } := by
  simp only [collisionKernel]
  set s := mag M (p.U - u) with hs
  set s' := mag M (U' - u) with hs'
  set k := 0.75 * a / pow3 r * sqr (0.5 * p.d + r) with hk
  have hsq : s * s ≤ s' * s' := mul_self_le_mul_self h0 hle
  have hk2 : 0 ≤ p.nParticle * (k * k) := mul_nonneg hn.le (mul_self_nonneg k)
  have key : p.nParticle * (k * s) * (k * s) ≤ p.nParticle * (k * s') * (k * s') := by
    have e1 : p.nParticle * (k * s) * (k * s) = p.nParticle * (k * k) * (s * s) := by ring
    have e2 : p.nParticle * (k * s') * (k * s') = p.nParticle * (k * k) * (s' * s') := by ring
    rw [e1, e2]
    exact mul_le_mul_of_nonneg_left hsq hk2
  exact key

/-- C7: calling `updateAverages` a second time on the unchanged collection
leaves the whole tracking data exactly as the first call left it, and the
values held by the seven fields after a call do not depend on what the fields
held before it. -/
theorem C7_updateAverages_idempotent (M : ScalarMath K) (cloud : CloudType K)
    (td td0 : TrackingData K trackPart) :
    updateAverages M cloud (updateAverages M cloud td) = updateAverages M cloud td ∧
    (updateAverages M cloud td).volumeAverage_.data =
      (updateAverages M cloud td0).volumeAverage_.data ∧
    (updateAverages M cloud td).radiusAverage_.data =
      (updateAverages M cloud td0).radiusAverage_.data ∧
    (updateAverages M cloud td).rhoAverage_.data =
      (updateAverages M cloud td0).rhoAverage_.data ∧
    (updateAverages M cloud td).uAverage_.data =
      (updateAverages M cloud td0).uAverage_.data ∧
    (updateAverages M cloud td).uSqrAverage_.data =
      (updateAverages M cloud td0).uSqrAverage_.data ∧
    (updateAverages M cloud td).frequencyAverage_.data =
      (updateAverages M cloud td0).frequencyAverage_.data ∧
    (updateAverages M cloud td).massAverage_.data =
      (updateAverages M cloud td0).massAverage_.data := by
  refine ⟨?_, ?_, ?_, ?_, ?_, ?_, ?_, ?_⟩
  · rw [updateAverages_eq_relabel M cloud (updateAverages M cloud td) td, relabel_self]
  all_goals rw [updateAverages_eq_relabel M cloud td td0]; rfl

/-- C8: a value written through the settable accessor `part()` is what the
read accessor `part()` returns afterwards, for every value of the phase
enumeration (the write is total and checks nothing), and a newly constructed
tracking data returns the phase passed to its constructor. -/
theorem C8_part_roundtrip (cloud : CloudType K) (td : TrackingData K trackPart)
    (v : trackPart) :
    (td.partRef v).part = v ∧ (TrackingData.New cloud v).part = v :=
  ⟨rfl, rfl⟩

end TrackingData

/-! ## Vector arithmetic -/

section VectorLemmas

variable {K : Type} [LinearOrderedField K]

theorem vector.mul_div_cancel (s : K) (v : vector K) (hs : s ≠ 0) : (s * v) / s = v := by
  ext
  · exact mul_div_cancel_left₀ v.x hs
  · exact mul_div_cancel_left₀ v.y hs
  · exact mul_div_cancel_left₀ v.z hs

theorem magSqr_sub_self (v : vector K) : magSqr (v - v) = 0 := by
  show (v.x - v.x) * (v.x - v.x) + (v.y - v.y) * (v.y - v.y) + (v.z - v.z) * (v.z - v.z) = 0
  simp

end VectorLemmas

namespace TrackingData

variable {K : Type} [LinearOrderedField K] {trackPart : Type}

/-- C3, as amended: for a population of a single parcel, after `updateAverages`
the volume field interpolated at the position of that parcel equals the
quantity it was seeded with, multiplicity times volume (the volume of the
parcel only when its multiplicity is one). -/
theorem C3_volume_single_parcel (M : ScalarMath K) (name timeName : String)
    (p : parcelType K) (td : TrackingData K trackPart) :
    (updateAverages M ⟨name, timeName, [p]⟩ td).volumeAverage_.interpolate p.position p.tetIs =
      p.nParticle * p.volume := by
  have hc : ∀ q ∈ (⟨name, timeName, [p]⟩ : CloudType K).parcels, q.cell = p.cell := by
    intro q hq
    rw [List.mem_singleton.mp hq]
  show (updateAverages M ⟨name, timeName, [p]⟩ td).volumeAverage_.data p.cell = _
  rw [volume_data M _ td p.cell hc]
  simp

/-- C3 fails as stated: the single parcel `parcelC` has multiplicity 2 and
volume 8, both positive, and the volume field at its position is 16, not 8. -/
theorem C3_counterexample :
    0 < parcelC.nParticle ∧ 0 < parcelC.volume ∧
    (updateAverages tableMath cloudC tdNew).volumeAverage_.interpolate parcelC.position
        parcelC.tetIs = 16 ∧
    (updateAverages tableMath cloudC tdNew).volumeAverage_.interpolate parcelC.position
        parcelC.tetIs ≠ parcelC.volume := by
  have hc : ∀ q ∈ cloudC.parcels, q.cell = 0 := by
    intro q hq
    rw [List.mem_singleton.mp hq]
    rfl
  have hv : (updateAverages tableMath cloudC tdNew).volumeAverage_.interpolate parcelC.position
      parcelC.tetIs = 16 := by
    show (updateAverages tableMath cloudC tdNew).volumeAverage_.data 0 = 16
    rw [volume_data tableMath cloudC tdNew 0 hc]
    norm_num [cloudC, parcelC]
  refine ⟨by norm_num [parcelC], by norm_num [parcelC], hv, ?_⟩
  rw [hv]
  norm_num [parcelC]

/-- C4: for a population of a single parcel of positive multiplicity and mass,
after `updateAverages` the velocity field interpolated at the position of that
parcel is the velocity of the parcel and the velocity-variance field there is
zero. -/
theorem C4_velocity_single_parcel (M : ScalarMath K) (name timeName : String)
    (p : parcelType K) (td : TrackingData K trackPart)
    (hn : 0 < p.nParticle) (hm : 0 < p.mass) :
    (updateAverages M ⟨name, timeName, [p]⟩ td).uAverage_.interpolate p.position p.tetIs = p.U ∧
    (updateAverages M ⟨name, timeName, [p]⟩ td).uSqrAverage_.interpolate p.position p.tetIs
      = 0 := by
  have hc : ∀ q ∈ (⟨name, timeName, [p]⟩ : CloudType K).parcels, q.cell = p.cell := by
    intro q hq
    rw [List.mem_singleton.mp hq]
  have hnm : p.nParticle * p.mass ≠ 0 := (mul_pos hn hm).ne'
  have hmass : (updateAverages M ⟨name, timeName, [p]⟩ td).massAverage_.data p.cell =
      p.nParticle * p.mass := by
    rw [mass_data M _ td p.cell hc]
    simp
  have hu : (updateAverages M ⟨name, timeName, [p]⟩ td).uAverage_.data p.cell = p.U := by
    rw [u_data M _ td p.cell hc, hmass, if_neg hnm]
    simp only [List.map_cons, List.map_nil, List.sum_cons, List.sum_nil, add_zero]
    exact vector.mul_div_cancel _ _ hnm
  refine ⟨hu, ?_⟩
  show (updateAverages M ⟨name, timeName, [p]⟩ td).uSqrAverage_.data p.cell = 0
  rw [uSqr_data M _ td p.cell hc, hmass, if_neg hnm, hu]
  simp [magSqr_sub_self]

/-- C4 at the single parcel `parcelC`. -/
theorem C4_velocity_single_parcel_witness :
    (0 < parcelC.nParticle ∧ 0 < parcelC.mass) ∧
    (updateAverages tableMath ⟨"cloud", "0", [parcelC]⟩ tdNew).uAverage_.interpolate
        parcelC.position parcelC.tetIs = parcelC.U ∧
    (updateAverages tableMath ⟨"cloud", "0", [parcelC]⟩ tdNew).uSqrAverage_.interpolate
        parcelC.position parcelC.tetIs = 0 :=
  ⟨⟨by norm_num [parcelC], by norm_num [parcelC]⟩,
    C4_velocity_single_parcel tableMath "cloud" "0" parcelC tdNew (by norm_num [parcelC])
      (by norm_num [parcelC])⟩

end TrackingData

namespace TrackingData

variable {K : Type} [LinearOrderedField K] {trackPart : Type}

end TrackingData

namespace TrackingData

variable {K : Type} [LinearOrderedField K] {trackPart : Type}

end TrackingData

section VectorProjections

variable {K : Type} [LinearOrderedField K]

end VectorProjections

namespace TrackingData

variable {K : Type} [LinearOrderedField K] {trackPart : Type}

/-- C9: for a non-empty population of positive multiplicities and volumes in a
single bucket (and a `pow` that is positive on positive volumes), after
`updateAverages` the radius field is the normalised volume field divided by the
count-normalised weight field, which is `sum(n_p*V_p)/sum(n_p*V_p^(2/3))`: the
two count normalisations cancel. For a single parcel the value is the cube
root of its volume: it is positive and its cube is `V`, given that
`pow(V, 2/3)` cubed is `V` squared. -/
theorem C9_sauter_mean_radius (M : ScalarMath K) (cloud : CloudType K)
    (td : TrackingData K trackPart) (c : Nat) (hne : cloud.parcels ≠ [])
    (hc : ∀ p ∈ cloud.parcels, p.cell = c)
    (hn : ∀ p ∈ cloud.parcels, 0 < p.nParticle) (hV : ∀ p ∈ cloud.parcels, 0 < p.volume)
    (hpow : ∀ p ∈ cloud.parcels, 0 < M.pow p.volume (2.0 / 3.0))
    (x : vector K) (t : tetIndices) (ht : t.cell = c) :
    (updateAverages M cloud td).radiusAverage_.interpolate x t =
      (updateAverages M cloud td).volumeAverage_.interpolate x t /
        ((cloud.parcels.map (fun p => p.nParticle * M.pow p.volume (2.0 / 3.0))).sum /
          (cloud.parcels.length : K)) ∧
    (updateAverages M cloud td).radiusAverage_.interpolate x t =
      (cloud.parcels.map (fun p => p.nParticle * p.volume)).sum /
        (cloud.parcels.map (fun p => p.nParticle * M.pow p.volume (2.0 / 3.0))).sum ∧
    (∀ p, cloud.parcels = [p] → M.pow p.volume (2.0 / 3.0) ^ 3 = p.volume ^ 2 →
      0 < (updateAverages M cloud td).radiusAverage_.interpolate x t ∧
      (updateAverages M cloud td).radiusAverage_.interpolate x t ^ 3 = p.volume) := by
  have hN : cloud.parcels.length ≠ 0 := fun h => hne (List.length_eq_zero.mp h)
  have hNK : (cloud.parcels.length : K) ≠ 0 := Nat.cast_ne_zero.mpr hN
  have hW : 0 < (cloud.parcels.map (fun p => p.nParticle * M.pow p.volume (2.0 / 3.0))).sum := by
    apply List.sum_pos
    · intro y hy
      obtain ⟨p, hp, rfl⟩ := List.mem_map.mp hy
      exact mul_pos (hn p hp) (hpow p hp)
    · intro h
      exact hne (List.map_eq_nil_iff.mp h)
  have hw0 : (cloud.parcels.map (fun p => p.nParticle * M.pow p.volume (2.0 / 3.0))).sum /
      (cloud.parcels.length : K) ≠ 0 := div_ne_zero hW.ne' hNK
  have h1 : (updateAverages M cloud td).radiusAverage_.interpolate x t =
      (updateAverages M cloud td).volumeAverage_.interpolate x t /
        ((cloud.parcels.map (fun p => p.nParticle * M.pow p.volume (2.0 / 3.0))).sum /
          (cloud.parcels.length : K)) := by
    show (updateAverages M cloud td).radiusAverage_.data t.cell =
      (updateAverages M cloud td).volumeAverage_.data t.cell / _
    rw [ht, radius_data M cloud td c hc, if_neg hN, if_neg hw0]
  have h2 : (updateAverages M cloud td).radiusAverage_.interpolate x t =
      (cloud.parcels.map (fun p => p.nParticle * p.volume)).sum /
        (cloud.parcels.map (fun p => p.nParticle * M.pow p.volume (2.0 / 3.0))).sum := by
    rw [h1]
    show (updateAverages M cloud td).volumeAverage_.data t.cell / _ = _
    rw [ht, volume_data M cloud td c hc, if_neg hN]
    field_simp
  refine ⟨h1, h2, ?_⟩
  intro p hp hcube
  have hmem : p ∈ cloud.parcels := by rw [hp]; exact List.mem_singleton_self p
  have hnp := hn p hmem
  have hVp := hV p hmem
  have hpp := hpow p hmem
  have hr : (updateAverages M cloud td).radiusAverage_.interpolate x t =
      p.volume / M.pow p.volume (2.0 / 3.0) := by
    rw [h2, hp]
    simp only [List.map_cons, List.map_nil, List.sum_cons, List.sum_nil, add_zero]
    exact mul_div_mul_left _ _ hnp.ne'
  rw [hr]
  refine ⟨div_pos hVp hpp, ?_⟩
  rw [div_pow, hcube]
  field_simp
  ring

theorem cloudC_cell : ∀ p ∈ cloudC.parcels, p.cell = 0 := by
  intro p hp
  rw [List.mem_singleton.mp hp]
  rfl

/-- C9 at the single parcel `parcelC` (volume 8): the radius field is 2. -/
theorem C9_sauter_mean_radius_witness :
    (cloudC.parcels ≠ [] ∧ tableMath.pow parcelC.volume (2.0 / 3.0) ^ 3 = parcelC.volume ^ 2) ∧
    (updateAverages tableMath cloudC tdNew).radiusAverage_.interpolate ⟨0, 0, 0⟩ ⟨0, 0, 0⟩ =
      (cloudC.parcels.map (fun p => p.nParticle * p.volume)).sum /
        (cloudC.parcels.map (fun p => p.nParticle * tableMath.pow p.volume (2.0 / 3.0))).sum ∧
    (updateAverages tableMath cloudC tdNew).radiusAverage_.interpolate ⟨0, 0, 0⟩ ⟨0, 0, 0⟩ ^ 3 =
      parcelC.volume := by
  have hcube : tableMath.pow parcelC.volume (2.0 / 3.0) ^ 3 = parcelC.volume ^ 2 := by
    norm_num [tableMath, parcelC]
  have h := C9_sauter_mean_radius tableMath cloudC tdNew 0 (List.cons_ne_nil _ _) cloudC_cell
    (by intro p hp; rw [List.mem_singleton.mp hp]; norm_num [parcelC])
    (by intro p hp; rw [List.mem_singleton.mp hp]; norm_num [parcelC])
    (by intro p hp; rw [List.mem_singleton.mp hp]; norm_num [tableMath, parcelC])
    ⟨0, 0, 0⟩ ⟨0, 0, 0⟩ rfl
  exact ⟨⟨List.cons_ne_nil _ _, hcube⟩, h.2.1, (h.2.2 parcelC rfl hcube).2⟩

end TrackingData

namespace TrackingData

/-- C6 at `parcelA` (relative speed 1) against the same parcel with velocity
`(2, 0, 0)` (relative speed 2), with `a = 1`, `r = 1` and `u = 0`. -/
theorem C6_frequency_contribution_mono_witness :
    (mag tableMath (parcelA.U - 0) = 1 ∧ mag tableMath ((⟨2, 0, 0⟩ : vector ℚ) - 0) = 2) ∧
    parcelA.nParticle * collisionKernel tableMath 1 1 0 parcelA *
        collisionKernel tableMath 1 1 0 parcelA ≤
      ({ parcelA with U := ⟨2, 0, 0⟩ } : parcelType ℚ).nParticle *
          collisionKernel tableMath 1 1 0 { parcelA with U := ⟨2, 0, 0⟩ } *
        collisionKernel tableMath 1 1 0 { parcelA with U := ⟨2, 0, 0⟩ } := by
  have h1 : mag tableMath (parcelA.U - 0) = 1 := by
    show tableMath.sqrt ((1 - 0) * (1 - 0) + (0 - 0) * (0 - 0) + (0 - 0) * (0 - 0) : ℚ) = 1
    norm_num [tableMath]
  have h2 : mag tableMath ((⟨2, 0, 0⟩ : vector ℚ) - 0) = 2 := by
    show tableMath.sqrt ((2 - 0) * (2 - 0) + (0 - 0) * (0 - 0) + (0 - 0) * (0 - 0) : ℚ) = 2
    norm_num [tableMath]
  exact ⟨⟨h1, h2⟩, C6_frequency_contribution_mono tableMath 1 1 0 parcelA ⟨2, 0, 0⟩
    (by norm_num [parcelA]) one_ne_zero (by rw [h1]; norm_num) (by rw [h1, h2]; norm_num)⟩

end TrackingData

end Foam
